import Mathlib

/-!
Verification of the Draw-App ML backend heuristics
(apps/ml-backend/src/ai_services.py and the handwriting endpoint of
apps/ml-backend/src/main.py), shallowly embedded in Lean 4.

Conventions of the embedding:
* Rasters are total functions `Int → Int → Pixel`; a pixel is an RGB
  triple of naturals.  External OpenCV primitives (drawing, morphology)
  are modelled as explicit pixel-level functions; the repository code
  that dispatches on shape / diagram type is translated verbatim.
* Python floats that carry exact decimal constants are modelled as
  rationals; Python integer floor division `//` is `Int.fdiv` / `Nat`
  division.
* The contour-extraction front end (Canny, findContours, approxPolyDP)
  is external to the repository; the embedding of `detect_shapes`
  therefore starts from the list of contours and a polygon-approximation
  function, exactly where the repository's own logic begins.
-/

/-- An 8-bit RGB pixel, modelled as a triple of naturals. -/
abbrev Pixel := Nat × Nat × Nat

/-- A raster image: a total assignment of pixels to integer coordinates. -/
abbrev Img := Int → Int → Pixel

/-- The constant BGR colour (0, 255, 0) used by every overlay drawing call. -/
def green : Pixel := (0, 255, 0)

/-- Bounding rectangle of a list of integer points, as in `cv2.boundingRect`:
`(x, y, w, h)` with `w = maxX - minX + 1` and `h = maxY - minY + 1`
(`(0,0,0,0)` on an empty list, which the callers never hit). -/
def boundingRect : List (Int × Int) → Int × Int × Int × Int
  | [] => (0, 0, 0, 0)
  | p :: ps =>
    let xs := (p :: ps).map Prod.fst
    let ys := (p :: ps).map Prod.snd
    let minX := xs.foldl min p.1
    let maxX := xs.foldl max p.1
    let minY := ys.foldl min p.2
    let maxY := ys.foldl max p.2
    (minX, minY, maxX - minX + 1, maxY - minY + 1)

/-- Bounding-box aspect ratio `w / h` of a polygon, as a rational
(`float(w) / h` in `ShapeRecognitionService._classify_shape`). -/
def aspect_ratio (approx : List (Int × Int)) : ℚ :=
  let r := boundingRect approx
  (r.2.2.1 : ℚ) / (r.2.2.2 : ℚ)

/-- `ShapeRecognitionService._classify_shape`: classify a polygon by its
vertex count; 4-vertex polygons split into diamond vs rectangle by the
bounding-box aspect ratio. -/
def classify_shape (approx : List (Int × Int)) : Option String :=
  let vertices := approx.length
  if vertices = 3 then
    some "triangle"
  else if vertices = 4 then
    if 0.8 ≤ aspect_ratio approx ∧ aspect_ratio approx ≤ 1.2 then
      some "diamond"
    else
      some "rectangle"
  else if vertices = 5 then
    some "pentagon"
  else if vertices = 6 then
    some "hexagon"
  else if vertices = 8 then
    some "octagon"
  else if vertices > 8 then
    some "circle"
  else
    none

/-- A detected shape, as the dict appended by
`ShapeRecognitionService.detect_shapes`. -/
structure DetectedShape where
  type : String
  confidence : ℚ
  bbox : Int × Int × Int × Int
  vertices : Nat
deriving DecidableEq

/-- The dict returned by `ShapeRecognitionService.detect_shapes`. -/
structure DetectResult where
  shapes_detected : Nat
  shapes : List DetectedShape
  total_contours : Nat

/-- `ShapeRecognitionService.detect_shapes`, starting from the extracted
contour list.  `approxOf` stands for the external
`cv2.approxPolyDP (epsilon = 2% of arc length)` step; the loop body —
classify the approximated polygon, and on success emit a shape with the
contour's bounding box and the constant confidence 0.85 — is the
repository's own code. -/
def detect_shapes (approxOf : List (Int × Int) → List (Int × Int))
    (contours : List (List (Int × Int))) : DetectResult :=
  let detected := contours.filterMap (fun contour =>
    let approx := approxOf contour
    (classify_shape approx).map (fun shape_type =>
      { type := shape_type
        confidence := 0.85
        bbox := boundingRect contour
        vertices := approx.length }))
  { shapes_detected := detected.length
    shapes := detected
    total_contours := contours.length }

/-- `DiagramDetectionService._analyze_text_density`: the placeholder
constant 0.3, independent of the raster. -/
def analyze_text_density (_gray : Img) : ℚ := 0.3

/-- `DiagramDetectionService._classify_diagram`: map the three heuristic
scores to a diagram-type label, first matching rule wins. -/
def classify_diagram (structure_score connections text : ℚ) : String :=
  if connections > 0.7 ∧ structure_score > 0.5 then
    "flowchart"
  else if text > 0.6 ∧ structure_score > 0.4 then
    "uml"
  else if connections > 0.8 ∧ text < 0.3 then
    "mindmap"
  else if structure_score > 0.8 then
    "network"
  else
    "organizational"

/-- Claim C2: with the text density pinned at its constant 0.3 the
classifier can never answer uml or mindmap; only flowchart, network and
organizational are reachable. -/
theorem classify_diagram_pinned_density (g : Img) (s c : ℚ) :
    analyze_text_density g = 0.3 ∧
    classify_diagram s c 0.3 ≠ "uml" ∧
    classify_diagram s c 0.3 ≠ "mindmap" ∧
    (classify_diagram s c 0.3 = "flowchart" ∨
      classify_diagram s c 0.3 = "network" ∨
      classify_diagram s c 0.3 = "organizational") := by
  refine ⟨rfl, ?_⟩
  unfold classify_diagram
  have huml : ¬ ((0.3 : ℚ) > 0.6) := by norm_num
  have hmm : ¬ ((0.3 : ℚ) < 0.3) := by norm_num
  split_ifs with h1 h2 h3 h4
  · exact ⟨by decide, by decide, Or.inl rfl⟩
  · exact absurd h2.1 huml
  · exact absurd h3.2 hmm
  · exact ⟨by decide, by decide, Or.inr (Or.inl rfl)⟩
  · exact ⟨by decide, by decide, Or.inr (Or.inr rfl)⟩

/-- Claim C3: the classifier is a deterministic pure function of the score
triple, the flowchart rule has priority over the later rules whenever it
matches, and on the scores (0.9, 0.9, 0.1) it answers flowchart even
though the network rule (structure > 0.8) also matches. -/
theorem classify_diagram_priority (s c t : ℚ) :
    (∀ s2 c2 t2 : ℚ, s = s2 → c = c2 → t = t2 →
      classify_diagram s c t = classify_diagram s2 c2 t2) ∧
    (c > 0.7 → s > 0.5 → classify_diagram s c t = "flowchart") ∧
    classify_diagram 0.9 0.9 0.1 = "flowchart" ∧
    ((0.9 : ℚ) > 0.8) := by
  refine ⟨?_, ?_, ?_, by norm_num⟩
  · intro s2 c2 t2 hs hc ht
    rw [hs, hc, ht]
  · intro hc hs
    unfold classify_diagram
    rw [if_pos ⟨hc, hs⟩]
  · unfold classify_diagram
    norm_num

/-- Claim C3 witness: the priority conjunct discharged at the concrete
score triple (0.9, 0.9, 0.1). -/
theorem classify_diagram_priority_witness :
    classify_diagram 0.9 0.9 0.1 = "flowchart" :=
  (classify_diagram_priority 0.9 0.9 0.1).2.1 (by norm_num) (by norm_num)

/-- Claim C1: the vertex-count classification table of the Shape Detector —
3 gives triangle; 4 gives diamond exactly when the bounding-box aspect
ratio lies in [0.8, 1.2] and rectangle otherwise; 5, 6, 8 give pentagon,
hexagon, octagon; more than 8 gives circle; counts 1, 2 and 7 produce no
shape; and every shape emitted by `detect_shapes` carries the constant
confidence 0.85. -/
theorem classify_shape_spec (approx : List (Int × Int)) :
    (approx.length = 3 → classify_shape approx = some "triangle") ∧
    (approx.length = 4 →
      (0.8 ≤ aspect_ratio approx ∧ aspect_ratio approx ≤ 1.2 →
        classify_shape approx = some "diamond") ∧
      (¬ (0.8 ≤ aspect_ratio approx ∧ aspect_ratio approx ≤ 1.2) →
        classify_shape approx = some "rectangle")) ∧
    (approx.length = 5 → classify_shape approx = some "pentagon") ∧
    (approx.length = 6 → classify_shape approx = some "hexagon") ∧
    (approx.length = 8 → classify_shape approx = some "octagon") ∧
    (8 < approx.length → classify_shape approx = some "circle") ∧
    (approx.length = 1 ∨ approx.length = 2 ∨ approx.length = 7 →
      classify_shape approx = none) ∧
    (∀ approxOf contours,
      ∀ s ∈ (detect_shapes approxOf contours).shapes, s.confidence = 0.85) := by
  refine ⟨?_, ?_, ?_, ?_, ?_, ?_, ?_, ?_⟩
  · intro h; simp [classify_shape, h]
  · intro h
    constructor
    · intro ha; simp [classify_shape, h, ha]
    · intro ha; simp [classify_shape, h, ha]
  · intro h; simp [classify_shape, h]
  · intro h; simp [classify_shape, h]
  · intro h; simp [classify_shape, h]
  · intro h
    have h3 : approx.length ≠ 3 := by omega
    have h4 : approx.length ≠ 4 := by omega
    have h5 : approx.length ≠ 5 := by omega
    have h6 : approx.length ≠ 6 := by omega
    have h8 : approx.length ≠ 8 := by omega
    simp [classify_shape, h3, h4, h5, h6, h8, h]
  · intro h
    rcases h with h | h | h <;> simp [classify_shape, h]
  · intro approxOf contours s hs
    simp only [detect_shapes, List.mem_filterMap] at hs
    obtain ⟨contour, -, hemit⟩ := hs
    rw [Option.map_eq_some'] at hemit
    obtain ⟨t, -, ht⟩ := hemit
    rw [← ht]

/-- Claim C1 witness: the classification table discharged at a concrete
3-vertex polygon. -/
theorem classify_shape_spec_witness :
    classify_shape [ (0, 0), (2, 0), (1, 2) ] = some "triangle" :=
  (classify_shape_spec [ (0, 0), (2, 0), (1, 2) ]).1 rfl

/-- Membership test for the outline band of an axis-aligned rectangle with
corners `p1`, `p2` and stroke thickness `t` — the pixel-level model of
`cv2.rectangle` (external library call). -/
def rectBorder (p1 p2 : Int × Int) (t px py : Int) : Bool :=
  decide (p1.1 ≤ px) && decide (px ≤ p2.1) &&
  decide (p1.2 ≤ py) && decide (py ≤ p2.2) &&
  (decide (px < p1.1 + t) || decide (p2.1 - t < px) ||
   decide (py < p1.2 + t) || decide (p2.2 - t < py))

/-- Model of `cv2.rectangle`: paint the outline band with `color`. -/
def cvRectangle (img : Img) (p1 p2 : Int × Int) (color : Pixel) (t : Int) : Img :=
  fun px py => if rectBorder p1 p2 t px py then color else img px py

/-- Membership test for the annulus of a circle outline of radius `r`
centred at `c` with stroke thickness `t` — the pixel-level model of
`cv2.circle` (external library call). -/
def circleBand (c : Int × Int) (r t px py : Int) : Bool :=
  let dx := px - c.1
  let dy := py - c.2
  let d2 := dx * dx + dy * dy
  decide (d2 ≤ r * r) && decide ((r - t) * (r - t) ≤ d2)

/-- Model of `cv2.circle`: paint the outline annulus with `color`. -/
def cvCircle (img : Img) (c : Int × Int) (r : Int) (color : Pixel) (t : Int) : Img :=
  fun px py => if circleBand c r t px py then color else img px py

/-- Membership test for the stroke band of the segment from `a` to `b` with
thickness `t`: the point projects onto the segment and its distance to the
supporting line is at most `t` (squared comparison to stay in `Int`). -/
def segBand (a b : Int × Int) (t px py : Int) : Bool :=
  let dx := b.1 - a.1
  let dy := b.2 - a.2
  let len2 := dx * dx + dy * dy
  let ux := px - a.1
  let uy := py - a.2
  let dot := ux * dx + uy * dy
  let cross := ux * dy - uy * dx
  decide (0 ≤ dot) && decide (dot ≤ len2) && decide (cross * cross ≤ t * t * len2)

/-- The consecutive segments of a polyline, including the closing segment
when `closed` is true (as in `cv2.polylines`). -/
def segmentsOf (pts : List (Int × Int)) (closed : Bool) :
    List ((Int × Int) × (Int × Int)) :=
  match pts with
  | [] => []
  | p :: rest => (p :: rest).zip (rest ++ if closed then [p] else [])

/-- Membership test for the union of the stroke bands of a polyline. -/
def polyBand (pts : List (Int × Int)) (closed : Bool) (t px py : Int) : Bool :=
  (segmentsOf pts closed).any (fun s => segBand s.1 s.2 t px py)

/-- Model of `cv2.polylines`: paint each segment's stroke band with `color`. -/
def cvPolylines (img : Img) (pts : List (Int × Int)) (closed : Bool)
    (color : Pixel) (t : Int) : Img :=
  fun px py => if polyBand pts closed t px py then color else img px py

/-- The loop body of `ShapeRecognitionService.clean_shapes`: dispatch on the
shape type, drawing the idealized primitive at the shape's bounding box;
all other types draw nothing. -/
def draw_shape (im : Img) (shape : DetectedShape) : Img :=
  let x := shape.bbox.1
  let y := shape.bbox.2.1
  let w := shape.bbox.2.2.1
  let h := shape.bbox.2.2.2
  if shape.type = "rectangle" then
    cvRectangle im (x, y) (x + w, y + h) green 2
  else if shape.type = "circle" then
    cvCircle im (x + w.fdiv 2, y + h.fdiv 2) ((min w h).fdiv 2) green 2
  else if shape.type = "triangle" then
    cvPolylines im [ (x, y + h), (x + w.fdiv 2, y), (x + w, y + h) ] true green 2
  else
    im

/-- `ShapeRecognitionService.clean_shapes`: start from a copy of the input
raster and draw each detected shape's idealized primitive in turn. -/
def clean_shapes (image : Img) (detected_shapes : List DetectedShape) : Img :=
  let cleaned_image := image
  detected_shapes.foldl draw_shape cleaned_image

/-- The set of pixels the overlay for one shape may touch: the primitive's
stroke band for the rectangle / circle / triangle types, empty otherwise. -/
def overlay_band (shape : DetectedShape) (px py : Int) : Bool :=
  let x := shape.bbox.1
  let y := shape.bbox.2.1
  let w := shape.bbox.2.2.1
  let h := shape.bbox.2.2.2
  if shape.type = "rectangle" then
    rectBorder (x, y) (x + w, y + h) 2 px py
  else if shape.type = "circle" then
    circleBand (x + w.fdiv 2, y + h.fdiv 2) ((min w h).fdiv 2) 2 px py
  else if shape.type = "triangle" then
    polyBand [ (x, y + h), (x + w.fdiv 2, y), (x + w, y + h) ] true 2 px py
  else
    false

/-- Drawing one shape changes a pixel only inside its overlay band. -/
theorem draw_shape_eq (im : Img) (shape : DetectedShape) (px py : Int) :
    draw_shape im shape px py =
      if overlay_band shape px py then green else im px py := by
  by_cases h1 : shape.type = "rectangle"
  · simp [draw_shape, overlay_band, h1, cvRectangle]
  · by_cases h2 : shape.type = "circle"
    · simp [draw_shape, overlay_band, h1, h2, cvCircle]
    · by_cases h3 : shape.type = "triangle"
      · simp [draw_shape, overlay_band, h1, h2, h3, cvPolylines]
      · simp [draw_shape, overlay_band, h1, h2, h3]

/-- Folding the drawing loop leaves untouched pixels intact. -/
theorem clean_shapes_foldl_frame (shapes : List DetectedShape) (im : Img)
    (px py : Int) (h : ∀ s ∈ shapes, overlay_band s px py = false) :
    shapes.foldl draw_shape im px py = im px py := by
  induction shapes generalizing im with
  | nil => rfl
  | cons s rest ih =>
    have hs : overlay_band s px py = false := h s (List.mem_cons_self s rest)
    have hrest : ∀ u ∈ rest, overlay_band u px py = false := fun u hu =>
      h u (List.mem_cons_of_mem s hu)
    calc (s :: rest).foldl draw_shape im px py
        = rest.foldl draw_shape (draw_shape im s) px py := rfl
      _ = draw_shape im s px py := ih (draw_shape im s) hrest
      _ = im px py := by rw [draw_shape_eq, hs]; simp

/-- Claim C6: the Shape Cleaner returns a new raster built from a copy of
the input; a pixel lying in no shape's overlay band keeps its input value,
and shapes whose type is none of rectangle, circle, triangle have an empty
overlay band everywhere — their regions stay identical to the input. -/
theorem clean_shapes_spec (image : Img) (shapes : List DetectedShape)
    (px py : Int) (h : ∀ s ∈ shapes, overlay_band s px py = false) :
    clean_shapes image shapes px py = image px py ∧
    (∀ s : DetectedShape, s.type ≠ "rectangle" → s.type ≠ "circle" →
      s.type ≠ "triangle" → ∀ qx qy : Int, overlay_band s qx qy = false) := by
  constructor
  · exact clean_shapes_foldl_frame shapes image px py h
  · intro s h1 h2 h3 qx qy
    unfold overlay_band
    simp [h1, h2, h3]

/-- Claim C6 witness: a pentagon shape draws nothing, so a concrete pixel
of a concrete raster is unchanged. -/
theorem clean_shapes_spec_witness :
    clean_shapes (fun _ _ => (7, 7, 7))
      [ { type := "pentagon", confidence := 0.85, bbox := (0, 0, 4, 4),
          vertices := 5 } ] 1 1 = (7, 7, 7) :=
  (clean_shapes_spec (fun _ _ => (7, 7, 7))
    [ { type := "pentagon", confidence := 0.85, bbox := (0, 0, 4, 4),
        vertices := 5 } ] 1 1 (by decide)).1

/-- Componentwise maximum of two pixels. -/
def pmax (a b : Pixel) : Pixel := (max a.1 b.1, max a.2.1 b.2.1, max a.2.2 b.2.2)

/-- Componentwise minimum of two pixels. -/
def pmin (a b : Pixel) : Pixel := (min a.1 b.1, min a.2.1 b.2.1, min a.2.2 b.2.2)

/-- Offsets covered by a `k × k` all-ones structuring element anchored at its
centre `(k / 2, k / 2)`, as built by `np.ones((k, k), np.uint8)`. -/
def kernelOffsets (k : Nat) : List Int :=
  (List.range k).map (fun i => (i : Int) - (k / 2 : Nat))

/-- The pixels of `img` under the structuring element centred at `(x, y)`. -/
def windowPixels (k : Nat) (img : Img) (x y : Int) : List Pixel :=
  (kernelOffsets k).foldr
    (fun dx acc => ((kernelOffsets k).map (fun dy => img (x + dx) (y + dy))) ++ acc)
    []

/-- Model of `cv2.dilate` with a `k × k` all-ones kernel: channelwise
maximum over the window (the window always contains the anchor pixel, so
the fold may start from it). -/
def dilate (k : Nat) (img : Img) : Img :=
  fun x y => (windowPixels k img x y).foldl pmax (img x y)

/-- Model of `cv2.erode` with a `k × k` all-ones kernel: channelwise
minimum over the window. -/
def erode (k : Nat) (img : Img) : Img :=
  fun x y => (windowPixels k img x y).foldl pmin (img x y)

/-- `cv2.morphologyEx(img, cv2.MORPH_CLOSE, kernel)`: dilation followed by
erosion. -/
def morphClose (k : Nat) (img : Img) : Img := erode k (dilate k img)

/-- `cv2.morphologyEx(img, cv2.MORPH_OPEN, kernel)`: erosion followed by
dilation. -/
def morphOpen (k : Nat) (img : Img) : Img := dilate k (erode k img)

/-- `DiagramDetectionService._enhance_flowchart`: closing with a 2 × 2
all-ones kernel. -/
def enhance_flowchart (image : Img) : Img := morphClose 2 image

/-- `DiagramDetectionService._enhance_uml`: opening with a 3 × 3 all-ones
kernel. -/
def enhance_uml (image : Img) : Img := morphOpen 3 image

/-- `DiagramDetectionService._enhance_mindmap`: closing with a 2 × 2
all-ones kernel. -/
def enhance_mindmap (image : Img) : Img := morphClose 2 image

/-- `DiagramDetectionService.clean_diagram`: start from a copy of the input
and apply the enhancement selected by the diagram type; unrecognized types
keep the copy untouched. -/
def clean_diagram (image : Img) (diagram_type : String) : Img :=
  let cleaned := image
  if diagram_type = "flowchart" then
    enhance_flowchart cleaned
  else if diagram_type = "uml" then
    enhance_uml cleaned
  else if diagram_type = "mindmap" then
    enhance_mindmap cleaned
  else
    cleaned

/-- Claim C9: the Diagram Cleaner applies exactly the fixed operation its
type selects — closing with a 2 × 2 kernel for flowchart and mindmap,
opening with a 3 × 3 kernel for uml — and for network and organizational
it returns an image pixel-equal to the input. -/
theorem clean_diagram_spec (image : Img) (t : String) :
    clean_diagram image "flowchart" = morphClose 2 image ∧
    clean_diagram image "uml" = morphOpen 3 image ∧
    clean_diagram image "mindmap" = morphClose 2 image ∧
    (t = "network" ∨ t = "organizational" → clean_diagram image t = image) := by
  refine ⟨rfl, ?_, ?_, ?_⟩
  · simp [clean_diagram, enhance_uml]
  · simp [clean_diagram, enhance_mindmap]
  · rintro (ht | ht) <;> simp [clean_diagram, ht]

/-- Claim C9 witness: the no-op conjunct discharged at the network type on
a concrete raster. -/
theorem clean_diagram_spec_witness :
    clean_diagram (fun _ _ => (9, 9, 9)) "network" = (fun _ _ => (9, 9, 9)) :=
  (clean_diagram_spec (fun _ _ => (9, 9, 9)) "network").2.2.2 (Or.inl rfl)

/-- One detection returned by the external reader: bounding box, text and
confidence, as the `(bbox, text, confidence)` triples of
`easyocr.Reader.readtext`. -/
abbrev ReadDetection := List (Int × Int) × String × ℚ

/-- The external OCR reader: maps a raster to a detection list, or to the
message of the exception it raised (everything inside the `try` block of
`extract_text`, including the channel-order conversion, is covered). -/
abbrev Reader := Img → Except String (List ReadDetection)

/-- The dict returned by `OCRService.extract_text`.  The two constructors
keep the two distinct key sets of the Python dicts apart: the degraded /
error dict has keys text, confidence, error; the success dict has keys
text, confidence, words, word_count. -/
inductive OCRResult where
  | errRes (text : String) (confidence : ℚ) (error : String)
  | okRes (text : String) (confidence : ℚ) (words : List ReadDetection)
      (word_count : Nat)
deriving DecidableEq

/-- `OCRService.extract_text`: the degraded dict when the reader is
disabled, the caught-exception dict when the reader raises, otherwise the
detections joined with single spaces and their average confidence
(0.0 when there are no detections). -/
def extract_text (reader : Option Reader) (image : Img) : OCRResult :=
  match reader with
  | none => .errRes "" 0 "OCR service not available"
  | some r =>
    match r image with
    | .error e => .errRes "" 0 e
    | .ok results =>
      let total_confidence : ℚ := results.foldl (fun acc d => acc + d.2.2) 0
      let avg_confidence : ℚ :=
        if results.isEmpty then 0 else total_confidence / (results.length : ℚ)
      .okRes (String.intercalate " " (results.map (fun d => d.2.1)))
        avg_confidence results results.length

/-- The confidence entry of an `extract_text` result. -/
def ocr_confidence : OCRResult → ℚ
  | .errRes _ c _ => c
  | .okRes _ c _ _ => c

/-- Claim C7: with a disabled reader `extract_text` returns exactly the
degraded dict and cannot raise; with an enabled reader any exception is
caught and surfaced as an error dict with its message; and an empty
detection list yields confidence 0.0. -/
theorem extract_text_spec (image : Img) :
    extract_text none image = .errRes "" 0 "OCR service not available" ∧
    (∀ (r : Reader) (e : String), r image = .error e →
      extract_text (some r) image = .errRes "" 0 e) ∧
    (∀ r : Reader, r image = .ok [] →
      ocr_confidence (extract_text (some r) image) = 0) := by
  refine ⟨rfl, ?_, ?_⟩
  · intro r e hr
    simp [extract_text, hr]
  · intro r hr
    simp [extract_text, hr, ocr_confidence]

/-- Claim C7 witness: the exception conjunct discharged with a reader that
always raises on a concrete raster. -/
theorem extract_text_spec_witness :
    extract_text (some (fun _ => Except.error "decode failed"))
      (fun _ _ => (0, 0, 0)) = .errRes "" 0 "decode failed" :=
  (extract_text_spec (fun _ _ => (0, 0, 0))).2.1
    (fun _ => Except.error "decode failed") "decode failed" rfl

/-- The `word_count` lookup of the handwriting handler: present only on
the success dict; on the degraded / error dict the Python subscript
raises `KeyError`. -/
def word_count_entry : OCRResult → Option Nat
  | .errRes _ _ _ => none
  | .okRes _ _ _ wc => some wc

/-- The `.get("words", [])` lookup of the handwriting handler. -/
def words_entry : OCRResult → List ReadDetection
  | .errRes _ _ _ => []
  | .okRes _ _ ws _ => ws

/-- The text entry of an `extract_text` result. -/
def ocr_text : OCRResult → String
  | .errRes t _ _ => t
  | .okRes t _ _ _ => t

/-- The response of the `/ai/handwriting-recognition` endpoint: either the
JSON success payload or an `HTTPException` with status and detail. -/
inductive HandlerResponse where
  | jsonOk (extracted_text : String) (confidence : ℚ) (word_count : Nat)
      (words : List ReadDetection) (enhanced_image : Bool)
  | httpError (status : Nat) (detail : String)
deriving DecidableEq

/-- `recognize_handwriting` in main.py: optionally enhance the raster
(`enhancer` stands for `OCRService.enhance_handwriting`, a chain of
external OpenCV filter calls), run `extract_text`, and build the response
dict.  Its unconditional subscript `ocr_result["word_count"]` raises
`KeyError("word_count")` when the key is absent, which the handler's
catch-all turns into HTTP 500 with detail
`Handwriting recognition failed: 'word_count'` (Python's `str` of that
`KeyError`). -/
def recognize_handwriting (reader : Option Reader) (enhancer : Img → Img)
    (image : Img) (enhance_image : Bool) : HandlerResponse :=
  let img_array := if enhance_image then enhancer image else image
  let ocr_result := extract_text reader img_array
  match word_count_entry ocr_result with
  | none => .httpError 500 "Handwriting recognition failed: \x27word_count\x27"
  | some wc =>
    .jsonOk (ocr_text ocr_result) (ocr_confidence ocr_result) wc
      (words_entry ocr_result) enhance_image

/-- Claim C10: with a disabled reader the degraded `extract_text` dict has
no word_count entry, so the handwriting endpoint always lands in the
generic 500 path and can never produce its success payload. -/
theorem recognize_handwriting_disabled (enhancer : Img → Img) (image : Img)
    (enhance_image : Bool) :
    word_count_entry (extract_text none image) = none ∧
    recognize_handwriting none enhancer image enhance_image =
      .httpError 500 "Handwriting recognition failed: \x27word_count\x27" ∧
    (∀ t c wc ws e, recognize_handwriting none enhancer image enhance_image ≠
      .jsonOk t c wc ws e) := by
  refine ⟨rfl, ?_, ?_⟩
  · cases enhance_image <;> rfl
  · intro t c wc ws e
    cases enhance_image <;> simp [recognize_handwriting, extract_text,
      word_count_entry]

/-- Integer ceiling of the square root — the least `k` with `n ≤ k * k` —
which is the exact value of `int(np.ceil(np.sqrt(n)))`. -/
def ceil_sqrt (n : Nat) : Nat :=
  ((List.range (n + 1)).find? (fun k => decide (n ≤ k * k))).getD n

/-- Integer ceiling division, the exact value of `int(np.ceil(n / m))` for
naturals with `m > 0`. -/
def ceil_div (n m : Nat) : Nat := (n + m - 1) / m

/-- A shape dict handed to the Auto-Arranger: its `bbox` entry
`(x, y, w, h)`, and `rest` standing for every other key of the dict,
which `shape.copy()` carries over unchanged. -/
structure ArrShape (α : Type) where
  bbox : Int × Int × Int × Int
  rest : α
deriving DecidableEq

/-- Placement of the shape at loop index `i`: row-major cell
`(i // cols, i % cols)`, positioned at the cell centre
`(col * cell_width + cell_width // 2, row * cell_height + cell_height // 2)`
with the original bbox width and height kept. -/
def place_shape {α : Type} (cols : Nat) (cell_width cell_height : Int)
    (i : Nat) (shape : ArrShape α) : ArrShape α :=
  let row := i / cols
  let col := i % cols
  let new_x := (col : Int) * cell_width + cell_width.fdiv 2
  let new_y := (row : Int) * cell_height + cell_height.fdiv 2
  { shape with bbox := (new_x, new_y, shape.bbox.2.2.1, shape.bbox.2.2.2) }

/-- The `for i, shape in enumerate(shapes)` loop of
`auto_arrange_drawings`, with the running index explicit. -/
def arrange_loop {α : Type} (cols : Nat) (cell_width cell_height : Int) :
    Nat → List (ArrShape α) → List (ArrShape α)
  | _, [] => []
  | i, shape :: rest =>
    place_shape cols cell_width cell_height i shape ::
      arrange_loop cols cell_width cell_height (i + 1) rest

/-- `AIAssistantService.auto_arrange_drawings`: empty input returns the
empty list; otherwise `cols = ceil(sqrt(n))`, `rows = ceil(n / cols)`,
cell dimensions by floor division of the canvas, and the row-major
placement loop. -/
def auto_arrange_drawings {α : Type} (shapes : List (ArrShape α))
    (canvas_size : Int × Int) : List (ArrShape α) :=
  if shapes.isEmpty then [] else
    let canvas_width := canvas_size.1
    let canvas_height := canvas_size.2
    let cols := ceil_sqrt shapes.length
    let rows := ceil_div shapes.length cols
    let cell_width := canvas_width.fdiv (cols : Int)
    let cell_height := canvas_height.fdiv (rows : Int)
    arrange_loop cols cell_width cell_height 0 shapes

/-- Indexing into the placement loop: the shape at position `j` is the
input shape at position `j`, placed at loop index `start + j`. -/
theorem arrange_loop_getElem? {α : Type} (cols : Nat)
    (cell_width cell_height : Int) (l : List (ArrShape α)) :
    ∀ start j : Nat,
      (arrange_loop cols cell_width cell_height start l)[j]? =
        (l[j]?).map (place_shape cols cell_width cell_height (start + j)) := by
  induction l with
  | nil => intro start j; simp [arrange_loop]
  | cons s rest ih =>
    intro start j
    cases j with
    | zero => simp [arrange_loop]
    | succ j =>
      have harith : start + 1 + j = start + (j + 1) := by omega
      simp only [arrange_loop, List.getElem?_cons_succ, ih (start + 1) j, harith]

/-- Five identical shapes with a 10 × 20 bounding box, the concrete input
of the n = 5 layout check. -/
def five_unit_shapes : List (ArrShape Unit) :=
  List.replicate 5 { bbox := (0, 0, 10, 20), rest := () }

/-- Claim C4: the Auto-Arranger computes `cols = ceil(sqrt(n))` and
`rows = ceil(n / cols)`, splits the canvas into `cols × rows` cells by
floor division, and places shape `i` (row-major) at the centre of cell
`(i // cols, i % cols)`; the empty list maps to the empty list; for n = 5
these are 3 columns and 2 rows, and on an 800 × 600 canvas the placed
positions are the five cell centres. -/
theorem auto_arrange_spec {α : Type} (shapes : List (ArrShape α))
    (cw ch : Int) (j : Nat) (hne : shapes ≠ []) :
    (auto_arrange_drawings shapes (cw, ch))[j]? =
      (shapes[j]?).map (place_shape (ceil_sqrt shapes.length)
        (cw.fdiv ((ceil_sqrt shapes.length : Nat) : Int))
        (ch.fdiv ((ceil_div shapes.length (ceil_sqrt shapes.length) : Nat) : Int))
        j) ∧
    auto_arrange_drawings ([] : List (ArrShape α)) (cw, ch) = [] ∧
    ceil_sqrt 5 = 3 ∧
    ceil_div 5 (ceil_sqrt 5) = 2 ∧
    (auto_arrange_drawings five_unit_shapes (800, 600)).map (fun s => s.bbox) =
      [ (133, 150, 10, 20), (399, 150, 10, 20), (665, 150, 10, 20),
        (133, 450, 10, 20), (399, 450, 10, 20) ] := by
  refine ⟨?_, rfl, by decide, by decide, by decide⟩
  have he : shapes.isEmpty = false := by
    cases shapes with
    | nil => exact absurd rfl hne
    | cons a l => rfl
  simp only [auto_arrange_drawings, he, Bool.false_eq_true, if_false,
    arrange_loop_getElem?, Nat.zero_add]

/-- Claim C4 witness: the placement formula discharged at the concrete
five-shape list, index 0. -/
theorem auto_arrange_spec_witness :
    (auto_arrange_drawings five_unit_shapes (800, 600))[0]? =
      (five_unit_shapes[0]?).map (place_shape (ceil_sqrt five_unit_shapes.length)
        ((800 : Int).fdiv ((ceil_sqrt five_unit_shapes.length : Nat) : Int))
        ((600 : Int).fdiv
          ((ceil_div five_unit_shapes.length
            (ceil_sqrt five_unit_shapes.length) : Nat) : Int)) 0) :=
  (auto_arrange_spec five_unit_shapes 800 600 0 (by decide)).1

/-- Claim C5: the Auto-Arranger changes only a shape's position — the bbox
width and height and every other field (`rest`) of each output shape equal
those of the corresponding input shape. -/
theorem auto_arrange_frame {α : Type} (shapes : List (ArrShape α))
    (canvas : Int × Int) (j : Nat) :
    ((auto_arrange_drawings shapes canvas)[j]?).map
        (fun s => (s.bbox.2.2.1, s.bbox.2.2.2, s.rest)) =
      (shapes[j]?).map (fun s => (s.bbox.2.2.1, s.bbox.2.2.2, s.rest)) := by
  cases he : shapes.isEmpty with
  | true =>
    have h0 : shapes = [] := by
      cases shapes with
      | nil => rfl
      | cons a l => exact absurd he (by simp [List.isEmpty])
    subst h0
    simp [auto_arrange_drawings]
  | false =>
    simp only [auto_arrange_drawings, he, Bool.false_eq_true, if_false,
      arrange_loop_getElem?, Nat.zero_add]
    cases hj : shapes[j]? with
    | none => rfl
    | some s => simp [place_shape]

/-- Whether the first list is a prefix of the second (character lists). -/
def occurs_at : List Char → List Char → Bool
  | [], _ => true
  | _ :: _, [] => false
  | a :: as, b :: bs => a == b && occurs_at as bs

/-- Whether the first list occurs contiguously inside the second. -/
def occurs_in : List Char → List Char → Bool
  | needle, [] => needle.isEmpty
  | needle, b :: bs => occurs_at needle (b :: bs) || occurs_in needle bs

/-- Python's `needle in hay` substring test on strings. -/
def str_contains (hay needle : String) : Bool := occurs_in needle.toList hay.toList

/-- Python's `str.lower`, on the ASCII inputs the Suggestion Engine
handles (character-by-character lowercasing). -/
def lower_str (s : String) : String := String.mk (s.toList.map Char.toLower)

/-- The fixed keyword table of `AIAssistantService.suggest_diagram`, in
its insertion order. -/
def suggestions : List (String × List String) :=
  [ ( "flowchart", [ "process", "workflow", "steps", "procedure", "algorithm" ] ),
    ( "uml", [ "class", "object", "system", "architecture", "design" ] ),
    ( "mindmap", [ "ideas", "concepts", "brainstorming", "planning", "organization" ] ),
    ( "network", [ "connections", "relationships", "graph", "nodes", "links" ] ),
    ( "organizational", [ "hierarchy", "structure", "team", "management", "roles" ] ) ]

/-- `sum(1 for keyword in keywords if keyword in description_lower)`. -/
def keyword_score (description_lower : String) (keywords : List String) : Nat :=
  (keywords.filter (fun keyword => str_contains description_lower keyword)).length

/-- The insertion-ordered `scores` dict of `suggest_diagram`. -/
def diagram_scores (description : String) : List (String × Nat) :=
  suggestions.map (fun p => (p.1, keyword_score (lower_str description) p.2))

/-- Python's `max(scores, key=scores.get)` over the insertion-ordered
dict, paired with its value: the first entry attaining the maximal value
(a later entry replaces the current best only when strictly greater). -/
def best_entry : List (String × Nat) → String × Nat
  | [] => ( "", 0 )
  | p :: rest => rest.foldl (fun b q => if q.2 > b.2 then q else b) p

/-- `max(len(keywords) for keywords in suggestions.values())`: the size of
the largest keyword list, the constant denominator of the confidence. -/
def max_keyword_count : Nat :=
  (suggestions.map (fun p => p.2.length)).foldl max 0

/-- The dict returned by `suggest_diagram`. -/
structure Suggestion where
  suggested_diagram : String
  confidence : ℚ
  reasoning : String
  alternatives : List String
deriving DecidableEq

/-- `AIAssistantService.suggest_diagram`: lower-case the description,
count keyword hits per type, pick the first maximal type, divide its
count by the constant largest-list size, and list the other positive
types as alternatives. -/
def suggest_diagram (description : String) : Suggestion :=
  let scores := diagram_scores description
  let best := best_entry scores
  { suggested_diagram := best.1
    confidence := (best.2 : ℚ) / (max_keyword_count : ℚ)
    reasoning := "Based on keywords: " ++
      String.intercalate ", "
        ((scores.filter (fun p => decide (0 < p.2))).map Prod.fst)
    alternatives :=
      (scores.filter (fun p =>
        decide (0 < p.2) && decide (p.1 ≠ best.1))).map Prod.fst }

/-- The keyword list the table assigns to a diagram type. -/
def type_keywords (t : String) : List String :=
  ((suggestions.find? (fun p => p.1 == t)).map Prod.snd).getD []

/-- Keyword hits of a description for one diagram type. -/
def keyword_count (description t : String) : Nat :=
  keyword_score (lower_str description) (type_keywords t)

/-- How `best_entry` behaves on the five-entry scores list: the result is
one of the entries, its value dominates every entry's value, and a later
type wins only when its count strictly exceeds every earlier count —
Python's `max` keeps the first maximal element. -/
theorem best_entry_five (c1 c2 c3 c4 c5 : Nat) (b : String × Nat)
    (hb : b = best_entry [ ( "flowchart", c1 ), ( "uml", c2 ), ( "mindmap", c3 ),
      ( "network", c4 ), ( "organizational", c5 ) ]) :
    (b = ( "flowchart", c1 ) ∨ b = ( "uml", c2 ) ∨ b = ( "mindmap", c3 ) ∨
      b = ( "network", c4 ) ∨ b = ( "organizational", c5 )) ∧
    (c1 ≤ b.2 ∧ c2 ≤ b.2 ∧ c3 ≤ b.2 ∧ c4 ≤ b.2 ∧ c5 ≤ b.2) ∧
    (b.1 = "uml" → c1 < c2) ∧
    (b.1 = "mindmap" → c1 < c3 ∧ c2 < c3) ∧
    (b.1 = "network" → c1 < c4 ∧ c2 < c4 ∧ c3 < c4) ∧
    (b.1 = "organizational" → c1 < c5 ∧ c2 < c5 ∧ c3 < c5 ∧ c4 < c5) := by
  subst hb
  simp only [best_entry, List.foldl_cons, List.foldl_nil]
  split_ifs <;> dsimp only at * <;>
    refine ⟨by simp, by omega, ?_, ?_, ?_, ?_⟩ <;>
      intro h <;> first | exact absurd h (by decide) | omega

/-- Claim C8: `suggest_diagram` lower-cases the description and counts
substring keyword hits per type; the winner's count dominates every
type's count and a later type wins only by strictly beating all earlier
types (first-maximum tie-breaking); the confidence divides the winner's
count by the constant 5, the size of the largest keyword list; the
alternatives are the positive-count types other than the winner; and the
description "Create a process workflow" yields flowchart with the nonzero
confidence 2 / 5. -/
theorem suggest_diagram_spec (d : String) :
    max_keyword_count = 5 ∧
    (suggest_diagram d).confidence =
      (keyword_count d (suggest_diagram d).suggested_diagram : ℚ) / 5 ∧
    (∀ t ∈ suggestions.map Prod.fst,
      keyword_count d t ≤ keyword_count d (suggest_diagram d).suggested_diagram) ∧
    ((suggest_diagram d).suggested_diagram = "uml" →
      keyword_count d "flowchart" < keyword_count d "uml") ∧
    ((suggest_diagram d).suggested_diagram = "mindmap" →
      keyword_count d "flowchart" < keyword_count d "mindmap" ∧
      keyword_count d "uml" < keyword_count d "mindmap") ∧
    ((suggest_diagram d).suggested_diagram = "network" →
      keyword_count d "flowchart" < keyword_count d "network" ∧
      keyword_count d "uml" < keyword_count d "network" ∧
      keyword_count d "mindmap" < keyword_count d "network") ∧
    ((suggest_diagram d).suggested_diagram = "organizational" →
      keyword_count d "flowchart" < keyword_count d "organizational" ∧
      keyword_count d "uml" < keyword_count d "organizational" ∧
      keyword_count d "mindmap" < keyword_count d "organizational" ∧
      keyword_count d "network" < keyword_count d "organizational") ∧
    (suggest_diagram d).alternatives =
      ((diagram_scores d).filter (fun p => decide (0 < p.2) &&
        decide (p.1 ≠ (suggest_diagram d).suggested_diagram))).map Prod.fst ∧
    (suggest_diagram "Create a process workflow").suggested_diagram =
      "flowchart" ∧
    (suggest_diagram "Create a process workflow").confidence = 2 / 5 ∧
    (suggest_diagram "Create a process workflow").alternatives = [] ∧
    ((2 : ℚ) / 5 ≠ 0) := by
  have hscores : diagram_scores d =
      [ ( "flowchart", keyword_count d "flowchart" ),
        ( "uml", keyword_count d "uml" ),
        ( "mindmap", keyword_count d "mindmap" ),
        ( "network", keyword_count d "network" ),
        ( "organizational", keyword_count d "organizational" ) ] := rfl
  obtain ⟨hmem, hle, huml, hmind, hnet, horg⟩ :=
    best_entry_five (keyword_count d "flowchart") (keyword_count d "uml")
      (keyword_count d "mindmap") (keyword_count d "network")
      (keyword_count d "organizational") (best_entry (diagram_scores d))
      (by rw [hscores])
  have hsugg : (suggest_diagram d).suggested_diagram =
      (best_entry (diagram_scores d)).1 := rfl
  have hconf : (suggest_diagram d).confidence =
      ((best_entry (diagram_scores d)).2 : ℚ) / ((max_keyword_count : Nat) : ℚ) :=
    rfl
  have hm : max_keyword_count = 5 := rfl
  have hconfW : (suggest_diagram "Create a process workflow").confidence =
      ((best_entry (diagram_scores "Create a process workflow")).2 : ℚ) /
        ((max_keyword_count : Nat) : ℚ) := rfl
  have hbW : (best_entry (diagram_scores "Create a process workflow")).2 = 2 :=
    by decide
  refine ⟨rfl, ?_, ?_, ?_, ?_, ?_, ?_, rfl, by decide,
    by rw [hconfW, hbW, hm]; norm_num, by decide, by norm_num⟩
  · rcases hmem with h | h | h | h | h <;>
      rw [hconf, hsugg, h, hm] <;> norm_num
  · intro t ht
    rw [hsugg]
    simp only [suggestions, List.map_cons, List.map_nil] at ht
    rcases hmem with h | h | h | h | h <;>
      rw [h] at hle ⊢ <;> dsimp only at hle ⊢ <;>
        fin_cases ht <;> omega
  · intro hs; rw [hsugg] at hs; exact huml hs
  · intro hs; rw [hsugg] at hs; exact hmind hs
  · intro hs; rw [hsugg] at hs; exact hnet hs
  · intro hs; rw [hsugg] at hs; exact horg hs

/-- Claim C8 witness: the dominance conjunct discharged at the concrete
description and the uml type. -/
theorem suggest_diagram_spec_witness :
    keyword_count "Create a process workflow" "uml" ≤
      keyword_count "Create a process workflow"
        (suggest_diagram "Create a process workflow").suggested_diagram :=
  (suggest_diagram_spec "Create a process workflow").2.2.1 "uml" (by decide)

/-- Claim C2 witness: the no-uml conjunct discharged at concrete scores. -/
theorem classify_diagram_pinned_density_witness :
    classify_diagram 0.95 0.95 0.3 ≠ "uml" :=
  (classify_diagram_pinned_density (fun _ _ => (0, 0, 0)) 0.95 0.95).2.1

/-- Claim C5 witness: the frame property discharged at the concrete
five-shape list, index 2. -/
theorem auto_arrange_frame_witness :
    ((auto_arrange_drawings five_unit_shapes (800, 600))[2]?).map
        (fun s => (s.bbox.2.2.1, s.bbox.2.2.2, s.rest)) =
      (five_unit_shapes[2]?).map
        (fun s => (s.bbox.2.2.1, s.bbox.2.2.2, s.rest)) :=
  auto_arrange_frame five_unit_shapes (800, 600) 2

/-- Claim C10 witness: the 500 response observed at a concrete raster with
no enhancement requested. -/
theorem recognize_handwriting_disabled_witness :
    recognize_handwriting none id (fun _ _ => (0, 0, 0)) false =
      .httpError 500 "Handwriting recognition failed: \x27word_count\x27" :=
  (recognize_handwriting_disabled id (fun _ _ => (0, 0, 0)) false).2.1
